import Mathlib

/-!
Shallow embedding of the srt-rs packet codec (src/packet.rs).

Conventions of the embedding:
* Rust `i32` / `u8` values are embedded as their bit patterns, `Nat < 2^32`
  (resp. `< 2^8`); two's complement is used where the source mentions negative
  literals (so `-1` is `0xFFFFFFFF`, `-2` is `0xFFFFFFFE`).
* Byte buffers (`bytes::Buf` / `BufMut`) are `List Nat` of bytes, read from the
  front; `remaining()` is `List.length`.
* Fallible functions (`std::io::Result`) return `PResult`; `PResult.stuck`
  models a Rust panic (`unimplemented!()` stubs and out-of-bounds buffer reads,
  which panic in the `bytes` crate); `PResult.err` carries the spec's error
  kinds (FailShortHeader / FailUnknownControl / FailBadEnum), one per error
  construction site of the source.
-/

namespace Srt

/-- Error kinds of the codec, named as in the specification: the source builds
an `std::io::Error` at three sites, mapped here to the spec's three kinds. -/
inductive PacketError where
  | shortHeader
  | unknownControl
  | badEnum
  deriving DecidableEq, Repr

/-- Result of running a codec function: success, a recoverable `io::Error`,
or `stuck` for a Rust panic (an `unimplemented!()` stub, or a buffer read past
the end, which panics in the `bytes` crate). -/
inductive PResult (α : Type) where
  | ok : α → PResult α
  | err : PacketError → PResult α
  | stuck : PResult α
  deriving DecidableEq, Repr

/-- Monadic sequencing mirroring Rust's `?` operator: errors and panics
propagate. -/
def PResult.bind {α β : Type} : PResult α → (α → PResult β) → PResult β
  | .ok a, f => f a
  | .err e, _ => .err e
  | .stuck, _ => .stuck

/-- `PacketLocation` enum of src/packet.rs (packet position inside a message). -/
inductive PacketLocation where
  | First
  | Middle
  | Last
  | Only
  deriving DecidableEq, Repr

/-- `PacketLocation::from_i32`: takes the second word of a data packet and
returns the location; guards translated arm by arm from the Rust `match`
(`0b10 << 30` is the bit pattern `0x80000000` of the corresponding `i32`). -/
def PacketLocation.from_i32 (f : Nat) : PacketLocation :=
  if f &&& (0b10 <<< 30) = (0b10 <<< 30) then .First
  else if f &&& (0b01 <<< 30) = (0b01 <<< 30) then .Last
  else if f &&& (0b11 <<< 30) ≠ (0b11 <<< 30) then .Only
  else .Middle

/-- `PacketLocation::to_i32` of src/packet.rs, verbatim bit patterns. -/
def PacketLocation.to_i32 : PacketLocation → Nat
  | .First => 0b11 <<< 30
  | .Middle => 0b10 <<< 30
  | .Last => 0b01 <<< 30
  | .Only => 0b00

/-- `SocketType` enum of the handshake. -/
inductive SocketType where
  | Stream
  | Datagram
  deriving DecidableEq, Repr

/-- `SocketType::from_i32`: 1 is Stream, 2 is Datagram, anything else is the
`InvalidData` error (the spec's FailBadEnum). -/
def SocketType.from_i32 (num : Nat) : PResult SocketType :=
  if num = 1 then .ok .Stream
  else if num = 2 then .ok .Datagram
  else .err .badEnum

/-- `SocketType::to_i32`. -/
def SocketType.to_i32 : SocketType → Nat
  | .Stream => 1
  | .Datagram => 2

/-- `ConnectionType` enum of the handshake. -/
inductive ConnectionType where
  | Regular
  | RendezvousFirst
  | RendezvousSecond
  | RendezvousFinal
  deriving DecidableEq, Repr

/-- `ConnectionType::from_i32`: 1, 0, -1, -2; the negative `i32` literals are
their two's-complement bit patterns `0xFFFFFFFF` and `0xFFFFFFFE`. Anything
else is the `InvalidData` error (the spec's FailBadEnum). -/
def ConnectionType.from_i32 (num : Nat) : PResult ConnectionType :=
  if num = 1 then .ok .Regular
  else if num = 0 then .ok .RendezvousFirst
  else if num = 0xFFFFFFFF then .ok .RendezvousSecond
  else if num = 0xFFFFFFFE then .ok .RendezvousFinal
  else .err .badEnum

/-- `ConnectionType::to_i32` (bit patterns of 1, 0, -1, -2). -/
def ConnectionType.to_i32 : ConnectionType → Nat
  | .Regular => 1
  | .RendezvousFirst => 0
  | .RendezvousSecond => 0xFFFFFFFF
  | .RendezvousFinal => 0xFFFFFFFE

/-- `std::net::IpAddr`: a V4 address holds its 4 octets, a V6 address its 16
octets, as byte lists. -/
inductive IpAddr where
  | V4 : List Nat → IpAddr
  | V6 : List Nat → IpAddr
  deriving DecidableEq, Repr

/-- Rust's `IpAddr::from([u8; 16])` (the `From<[u8; 16]>` impl), used by the
handshake deserializer: it always constructs a `V6` address from the 16
bytes, never a `V4`. -/
def IpAddr.from16 (bs : List Nat) : IpAddr := .V6 bs

/-- `HandshakeControlInfo` struct of src/packet.rs. -/
structure HandshakeControlInfo where
  udt_version : Nat
  sock_type : SocketType
  init_seq_num : Nat
  max_packet_size : Nat
  max_flow_size : Nat
  connection_type : ConnectionType
  socket_id : Nat
  syn_cookie : Nat
  peer_addr : IpAddr
  deriving DecidableEq, Repr

/-- `AckControlInfo` struct of src/packet.rs. -/
structure AckControlInfo where
  recvd_until : Nat
  rtt : Option Nat
  rtt_variance : Option Nat
  buffer_available : Option Nat
  packet_recv_rate : Option Nat
  est_link_cap : Option Nat
  deriving DecidableEq, Repr

/-- `NakControlInfo` struct of src/packet.rs. -/
structure NakControlInfo where
  loss_info : List Nat
  deriving DecidableEq, Repr

/-- `DropRequestControlInfo` struct of src/packet.rs. -/
structure DropRequestControlInfo where
  first : Nat
  last : Nat
  deriving DecidableEq, Repr

/-- `ControlTypes` enum of src/packet.rs. -/
inductive ControlTypes where
  | Handshake : HandshakeControlInfo → ControlTypes
  | KeepAlive : ControlTypes
  | Ack : Nat → AckControlInfo → ControlTypes
  | Nak : NakControlInfo → ControlTypes
  | Shutdown : ControlTypes
  | Ack2 : Nat → ControlTypes
  | DropRequest : Nat → DropRequestControlInfo → ControlTypes
  deriving DecidableEq, Repr

/-- `ControlPacket` struct of src/packet.rs. -/
structure ControlPacket where
  timestamp : Nat
  dest_sockid : Nat
  control_type : ControlTypes
  deriving DecidableEq, Repr

/-- `DataPacket` struct of src/packet.rs. -/
structure DataPacket where
  seq_number : Nat
  message_loc : PacketLocation
  in_order_delivery : Bool
  message_number : Nat
  timestamp : Nat
  dest_sockid : Nat
  payload : List Nat
  deriving DecidableEq, Repr

/-- `Packet` enum of src/packet.rs. -/
inductive Packet where
  | Data : DataPacket → Packet
  | Control : ControlPacket → Packet
  deriving DecidableEq, Repr

/-- Big-endian 32-bit value of four bytes, the value read by
`Buf::get_i32::<BigEndian>` as a bit pattern. -/
def be32 (a b c d : Nat) : Nat := ((a * 256 + b) * 256 + c) * 256 + d

/-- `Buf::get_i32::<BigEndian>`: consume four bytes from the front; with
fewer than four remaining the `bytes` crate panics (`stuck`). -/
def getU32 : List Nat → PResult (Nat × List Nat)
  | a :: b :: c :: d :: rest => .ok (be32 a b c d, rest)
  | _ => .stuck

/-- `Buf::copy_to_slice` into a 16-byte array: take 16 bytes or panic. -/
def copy16 (buf : List Nat) : PResult (List Nat × List Nat) :=
  if 16 ≤ buf.length then .ok (buf.take 16, buf.drop 16) else .stuck

/-- The `opt_read_next` closure of the ACK deserializer: read an `i32` only
when `buf.remaining() > 4` (that is, at least five bytes remain), else leave
the field unset; returns the field and the remaining buffer. -/
def optReadNext (buf : List Nat) : Option Nat × List Nat :=
  match buf with
  | a :: b :: c :: d :: e :: rest => (some (be32 a b c d), e :: rest)
  | _ => (none, buf)

/-- `BufMut::put_i32::<BigEndian>` of a 32-bit pattern: four big-endian bytes. -/
def putU32 (n : Nat) : List Nat :=
  [n / 2 ^ 24 % 256, n / 2 ^ 16 % 256, n / 2 ^ 8 % 256, n % 256]

/-- `BufMut::put_i16::<BigEndian>` of a 16-bit pattern: two big-endian bytes. -/
def putU16 (n : Nat) : List Nat := [n / 256 % 256, n % 256]

/-- Bitwise complement on 32-bit patterns (Rust `!` on `i32`). -/
def not32 (n : Nat) : Nat := 0xFFFFFFFF ^^^ n

/-- `ControlTypes::deserialize` of src/packet.rs: dispatch on the packet type
byte; the arms for 0x3 (NAK), 0x6 (ACK2) and 0x7 (DropRequest) are
`unimplemented!()` in the source and therefore `stuck`; an unknown type byte
is the `InvalidData` error (the spec's FailUnknownControl). -/
def ControlTypes.deserialize (packet_type : Nat) (extra_info : Nat)
    (buf : List Nat) : PResult ControlTypes :=
  if packet_type = 0x0 then
    (getU32 buf).bind fun (udt_version, buf) =>
    (getU32 buf).bind fun (sock_type_raw, buf) =>
    (SocketType.from_i32 sock_type_raw).bind fun sock_type =>
    (getU32 buf).bind fun (init_seq_num, buf) =>
    (getU32 buf).bind fun (max_packet_size, buf) =>
    (getU32 buf).bind fun (max_flow_size, buf) =>
    (getU32 buf).bind fun (connection_type_raw, buf) =>
    (ConnectionType.from_i32 connection_type_raw).bind fun connection_type =>
    (getU32 buf).bind fun (socket_id, buf) =>
    (getU32 buf).bind fun (syn_cookie, buf) =>
    (copy16 buf).bind fun (ip_buf, _) =>
    .ok (.Handshake {
      udt_version := udt_version,
      sock_type := sock_type,
      init_seq_num := init_seq_num,
      max_packet_size := max_packet_size,
      max_flow_size := max_flow_size,
      connection_type := connection_type,
      socket_id := socket_id,
      syn_cookie := syn_cookie,
      peer_addr := IpAddr.from16 ip_buf })
  else if packet_type = 0x1 then .ok .KeepAlive
  else if packet_type = 0x2 then
    (getU32 buf).bind fun (recvd_until, buf) =>
    let r1 := optReadNext buf
    let r2 := optReadNext r1.2
    let r3 := optReadNext r2.2
    let r4 := optReadNext r3.2
    let r5 := optReadNext r4.2
    .ok (.Ack extra_info {
      recvd_until := recvd_until,
      rtt := r1.1,
      rtt_variance := r2.1,
      buffer_available := r3.1,
      packet_recv_rate := r4.1,
      est_link_cap := r5.1 })
  else if packet_type = 0x3 then .stuck
  else if packet_type = 0x5 then .ok .Shutdown
  else if packet_type = 0x6 then .stuck
  else if packet_type = 0x7 then .stuck
  else .err .unknownControl

/-- `ControlTypes::id_byte` of src/packet.rs. -/
def ControlTypes.id_byte : ControlTypes → Nat
  | .Handshake _ => 0x0
  | .KeepAlive => 0x1
  | .Ack _ _ => 0x2
  | .Nak _ => 0x3
  | .Shutdown => 0x5
  | .Ack2 _ => 0x6
  | .DropRequest _ _ => 0x7

/-- `ControlTypes::add_info` of src/packet.rs. -/
def ControlTypes.add_info : ControlTypes → Nat
  | .Handshake _ => 0
  | .KeepAlive => 0
  | .Ack i _ => i
  | .Nak _ => 0
  | .Shutdown => 0
  | .Ack2 i => i
  | .DropRequest i _ => i

/-- `ControlTypes::serialize` of src/packet.rs: the bytes appended for the
control-type body; `none` models the `unimplemented!()` panic of the Ack,
Nak and DropRequest arms. For an IPv4 peer address the source appends the 4
address octets and then the 4-byte literal `b"\x5c0\x5c0\x5c0\x5c0"`. -/
def ControlTypes.serialize : ControlTypes → Option (List Nat)
  | .Handshake c =>
    some (putU32 c.udt_version ++ putU32 c.sock_type.to_i32 ++
      putU32 c.init_seq_num ++ putU32 c.max_packet_size ++
      putU32 c.max_flow_size ++ putU32 c.connection_type.to_i32 ++
      putU32 c.socket_id ++ putU32 c.syn_cookie ++
      (match c.peer_addr with
       | .V4 four => four ++ [0, 0, 0, 0]
       | .V6 six => six))
  | .KeepAlive => some []
  | .Ack _ _ => none
  | .Nak _ => none
  | .Shutdown => some []
  | .Ack2 _ => some []
  | .DropRequest _ _ => none

/-- `Packet::parse` of src/packet.rs: reject buffers shorter than 16 bytes
(the spec's FailShortHeader), then branch on the top bit of the first byte
between data and control packets. -/
def Packet.parse (buf : List Nat) : PResult Packet :=
  if buf.length < 16 then .err .shortHeader
  else
    match buf with
    | b0 :: b1 :: b2 :: b3 :: rest =>
      if b0 &&& (0b1 <<< 7) = 0 then
        (getU32 rest).bind fun (second_line, buf) =>
        (getU32 buf).bind fun (timestamp, buf) =>
        (getU32 buf).bind fun (dest_sockid, buf) =>
        .ok (.Data {
          seq_number := be32 b0 b1 b2 b3,
          message_loc := PacketLocation.from_i32 second_line,
          in_order_delivery := (second_line &&& (0b1 <<< 29)) != 0,
          message_number := second_line &&& not32 (0b111 <<< 29),
          timestamp := timestamp,
          dest_sockid := dest_sockid,
          payload := buf })
      else
        (getU32 rest).bind fun (add_info, buf) =>
        (getU32 buf).bind fun (timestamp, buf) =>
        (getU32 buf).bind fun (dest_sockid, buf) =>
        (ControlTypes.deserialize b1 add_info buf).bind fun control_type =>
        .ok (.Control {
          timestamp := timestamp,
          dest_sockid := dest_sockid,
          control_type := control_type })
    | _ => .stuck

/-- `Packet::serialize` of src/packet.rs; `none` propagates the
`unimplemented!()` panic of the unserializable control bodies. -/
def Packet.serialize : Packet → Option (List Nat)
  | .Control c =>
    (c.control_type.serialize).map fun body =>
      putU16 (c.control_type.id_byte ||| (0b1 <<< 15)) ++ putU16 0 ++
      putU32 c.control_type.add_info ++ putU32 c.timestamp ++
      putU32 c.dest_sockid ++ body
  | .Data d =>
    some (putU32 d.seq_number ++
      putU32 (d.message_number ||| d.message_loc.to_i32) ++
      putU32 d.timestamp ++ putU32 d.dest_sockid ++ d.payload)

/-- The ACK optional reader produces a value exactly when at least five bytes
remain (the source's `remaining() > 4` guard). -/
theorem optReadNext_isSome (l : List Nat) :
    (optReadNext l).1.isSome ↔ 5 ≤ l.length := by
  rcases l with _ | ⟨a, _ | ⟨b, _ | ⟨c, _ | ⟨d, _ | ⟨e, r⟩⟩⟩⟩⟩ <;>
    simp [optReadNext]

/-- Buffer length after one ACK optional read: four bytes consumed when the
guard fires, none otherwise. -/
theorem optReadNext_length (l : List Nat) :
    (optReadNext l).2.length = if 5 ≤ l.length then l.length - 4 else l.length := by
  rcases l with _ | ⟨a, _ | ⟨b, _ | ⟨c, _ | ⟨d, _ | ⟨e, r⟩⟩⟩⟩⟩ <;>
    simp [optReadNext]

/-- If both FF bits are set in a 32-bit pattern then its top bit is set: the
guard producing `Middle` in `from_i32` is subsumed by the guard producing
`First`. -/
theorem land_top_of_land_both (x : Nat)
    (h : x &&& (0b11 <<< 30) = 0b11 <<< 30) :
    x &&& (0b10 <<< 30) = 0b10 <<< 30 := by
  have hsub : ((0b11 <<< 30 : Nat) &&& (0b10 <<< 30)) = 0b10 <<< 30 := by decide
  calc x &&& (0b10 <<< 30)
      = x &&& ((0b11 <<< 30) &&& (0b10 <<< 30)) := by rw [hsub]
    _ = (x &&& (0b11 <<< 30)) &&& (0b10 <<< 30) := (Nat.land_assoc ..).symm
    _ = (0b11 <<< 30 : Nat) &&& (0b10 <<< 30) := by rw [h]
    _ = 0b10 <<< 30 := hsub

/-- The data packet witnessing C1: in-order delivery requested, location
Only, sequence number 1, message number 5, a one-byte payload. -/
def c1sent : DataPacket where
  seq_number := 1
  message_loc := .Only
  in_order_delivery := true
  message_number := 5
  timestamp := 2
  dest_sockid := 3
  payload := [9]

/-- C1: the codec round trip `parse (serialize P) = P` fails on the code. The
source's `Packet::serialize` never writes the O (in-order) bit of a data
packet's second word, so a data packet sent with `in_order_delivery = true`
is parsed back with `in_order_delivery = false`; every other field of this
packet survives. -/
theorem c1_roundtrip_drops_in_order :
    Packet.serialize (.Data c1sent) =
      some [0, 0, 0, 1, 0, 0, 0, 5, 0, 0, 0, 2, 0, 0, 0, 3, 9] ∧
    Packet.parse [0, 0, 0, 1, 0, 0, 0, 5, 0, 0, 0, 2, 0, 0, 0, 3, 9] =
      .ok (.Data { c1sent with in_order_delivery := false }) ∧
    c1sent.in_order_delivery = true := by
  refine ⟨by decide, by decide, rfl⟩

/-- C2: the FF round trip `from_i32 (to_i32 loc) = loc` fails at `Middle`:
`to_i32 Middle` is `0b10 <<< 30`, whose set top bit makes `from_i32` return
`First`. The source's own `packet_location_test` and the doc comments on the
enum fix the encoding under which the round trip would hold. -/
theorem c2_middle_roundtrip_first :
    PacketLocation.from_i32 (PacketLocation.to_i32 .Middle) = .First ∧
    PacketLocation.from_i32 (PacketLocation.to_i32 .Middle) ≠ .Middle := by
  constructor <;> decide

/-- C3: the FF bits written on the wire diverge from the spec table
(First = 10, Middle = 00, Last = 01, Only = 11) for every location except
`Last`: the code writes 11 for First, 10 for Middle, 00 for Only. -/
theorem c3_ff_bits_inverted :
    PacketLocation.to_i32 .First ≠ 0b10 <<< 30 ∧
    PacketLocation.to_i32 .First = 0b11 <<< 30 ∧
    PacketLocation.to_i32 .Middle ≠ 0b00 ∧
    PacketLocation.to_i32 .Middle = 0b10 <<< 30 ∧
    PacketLocation.to_i32 .Last = 0b01 <<< 30 ∧
    PacketLocation.to_i32 .Only ≠ 0b11 <<< 30 ∧
    PacketLocation.to_i32 .Only = 0 := by
  refine ⟨by decide, by decide, by decide, by decide, by decide, by decide, by decide⟩

/-- The 56-byte output of serializing a handshake control packet whose peer
address is the IPv4 address 127.0.0.1: the IP field is 8 bytes (4 octets and
4 zeros) instead of the 16 bytes the parser reads. -/
def c4bytes : List Nat :=
  [128, 0, 0, 0, 0, 0, 0, 0, 0, 0, 0, 0, 0, 0, 0, 0,
   0, 0, 0, 4, 0, 0, 0, 2, 0, 0, 0, 10, 0, 0, 5, 220,
   0, 0, 100, 0, 0, 0, 0, 1, 0, 0, 0, 7, 0, 0, 0, 8,
   127, 0, 0, 1, 0, 0, 0, 0]

/-- The handshake control packet witnessing C4: UDT version 4, datagram
socket, regular connection, IPv4 peer 127.0.0.1. -/
def c4pkt : Packet :=
  .Control {
    timestamp := 0,
    dest_sockid := 0,
    control_type := .Handshake {
      udt_version := 4,
      sock_type := .Datagram,
      init_seq_num := 10,
      max_packet_size := 1500,
      max_flow_size := 25600,
      connection_type := .Regular,
      socket_id := 7,
      syn_cookie := 8,
      peer_addr := .V4 [127, 0, 0, 1] } }

/-- C4: serializing a handshake with an IPv4 peer writes only 4 zero bytes
after the 4 address octets (an 8-byte IP field, 56 bytes in all) instead of
the 16-byte field the claim and the packet diagram describe; parsing the
code's own output runs past the end of the buffer (a panic in the source). -/
theorem c4_ipv4_field_eight_bytes :
    Packet.serialize c4pkt = some c4bytes ∧
    c4bytes.length = 56 ∧
    Packet.parse c4bytes = .stuck := by
  refine ⟨by decide, by decide, by decide⟩

/-- A 24-byte ACK control packet whose body is `recvd_until = 7` followed by
exactly four more bytes (the big-endian encoding of 9). -/
def c5bytes : List Nat :=
  [0x80, 0x02, 0, 0, 0, 0, 0, 0, 0, 0, 0, 0, 0, 0, 0, 0, 0, 0, 0, 7, 0, 0, 0, 9]

/-- C5: counterexample to reading an optional ACK field when exactly 4 bytes
remain. After `recvd_until` the buffer holds the four bytes of the value 9,
yet the parser leaves `rtt` unset (the source's guard is `remaining() > 4`,
not `>= 4`), refuting the claim that the field is read whenever at least 4
bytes remain. -/
theorem c5_exact_four_not_read :
    Packet.parse c5bytes = .ok (.Control {
      timestamp := 0,
      dest_sockid := 0,
      control_type := .Ack 0 {
        recvd_until := 7,
        rtt := none,
        rtt_variance := none,
        buffer_available := none,
        packet_recv_rate := none,
        est_link_cap := none } }) ∧
    Packet.parse c5bytes ≠ .ok (.Control {
      timestamp := 0,
      dest_sockid := 0,
      control_type := .Ack 0 {
        recvd_until := 7,
        rtt := some 9,
        rtt_variance := none,
        buffer_available := none,
        packet_recv_rate := none,
        est_link_cap := none } }) := by
  constructor <;> decide

/-- C5 (amended): each of the five optional ACK fields, in order, is read
exactly when more than 4 bytes remain at that point — equivalently, field
number i (counting from 0) is set exactly when the bytes after `recvd_until`
number at least 4·i + 5. -/
theorem c5_optional_read_iff_more_than_four (extra a b c d : Nat)
    (rest : List Nat) :
    ∃ info : AckControlInfo,
      ControlTypes.deserialize 0x2 extra (a :: b :: c :: d :: rest) =
        .ok (.Ack extra info) ∧
      info.recvd_until = be32 a b c d ∧
      (info.rtt.isSome ↔ 5 ≤ rest.length) ∧
      (info.rtt_variance.isSome ↔ 9 ≤ rest.length) ∧
      (info.buffer_available.isSome ↔ 13 ≤ rest.length) ∧
      (info.packet_recv_rate.isSome ↔ 17 ≤ rest.length) ∧
      (info.est_link_cap.isSome ↔ 21 ≤ rest.length) := by
  refine ⟨_, rfl, rfl, ?_, ?_, ?_, ?_, ?_⟩ <;>
    simp only [optReadNext_isSome, optReadNext_length] <;>
    split_ifs <;> omega

/-- C6: the NAK (0x3), ACK2 (0x6) and DropRequest (0x7) control bodies are
`unimplemented!()` stubs: deserializing those type codes panics for every
buffer, and serializing the Ack, Nak and DropRequest variants panics for
every payload. -/
theorem c6_unimplemented_stubs (extra : Nat) (buf : List Nat) (n : Nat)
    (ai : AckControlInfo) (ni : NakControlInfo) (m : Nat)
    (di : DropRequestControlInfo) :
    ControlTypes.deserialize 0x3 extra buf = .stuck ∧
    ControlTypes.deserialize 0x6 extra buf = .stuck ∧
    ControlTypes.deserialize 0x7 extra buf = .stuck ∧
    ControlTypes.serialize (.Ack n ai) = none ∧
    ControlTypes.serialize (.Nak ni) = none ∧
    ControlTypes.serialize (.DropRequest m di) = none :=
  ⟨rfl, rfl, rfl, rfl, rfl, rfl⟩

/-- C7: every buffer shorter than 16 bytes is rejected by `Packet::parse`
with the short-header error (FailShortHeader); no packet is produced and no
panic is reached. -/
theorem c7_short_header (buf : List Nat) (h : buf.length < 16) :
    Packet.parse buf = .err .shortHeader := by
  unfold Packet.parse
  rw [if_pos h]

/-- Witness for C7 at the empty buffer. -/
theorem c7_short_header_witness :
    ([] : List Nat).length < 16 ∧ Packet.parse [] = .err .shortHeader :=
  ⟨by decide, c7_short_header [] (by decide)⟩

/-- C8: a control type byte outside the defined set {0x0, 0x1, 0x2, 0x3, 0x5,
0x6, 0x7} deserializes to the FailUnknownControl error; a `SocketType` value
outside {1, 2} and a `ConnectionType` value outside {1, 0, -1, -2} (the last
two as the bit patterns 0xFFFFFFFF and 0xFFFFFFFE) decode to the FailBadEnum
error; in each case an error is returned, never a misparsed value. -/
theorem c8_unknown_type_bad_enum (t extra : Nat) (buf : List Nat)
    (ht : ¬(t = 0x0 ∨ t = 0x1 ∨ t = 0x2 ∨ t = 0x3 ∨ t = 0x5 ∨ t = 0x6 ∨ t = 0x7))
    (n : Nat) (hn : ¬(n = 1 ∨ n = 2))
    (m : Nat) (hm : ¬(m = 1 ∨ m = 0 ∨ m = 0xFFFFFFFF ∨ m = 0xFFFFFFFE)) :
    ControlTypes.deserialize t extra buf = .err .unknownControl ∧
    SocketType.from_i32 n = .err .badEnum ∧
    ConnectionType.from_i32 m = .err .badEnum := by
  push_neg at ht hn hm
  obtain ⟨h0, h1, h2, h3, h5, h6, h7⟩ := ht
  obtain ⟨g1, g2⟩ := hn
  obtain ⟨k1, k0, km1, km2⟩ := hm
  refine ⟨?_, ?_, ?_⟩
  · simp [ControlTypes.deserialize, h0, h1, h2, h3, h5, h6, h7]
  · simp [SocketType.from_i32, g1, g2]
  · simp [ConnectionType.from_i32, k1, k0, km1, km2]

/-- Witness for C8 at type byte 4, socket type 3, connection type 2. -/
theorem c8_unknown_type_bad_enum_witness :
    ControlTypes.deserialize 4 0 [] = .err .unknownControl ∧
    SocketType.from_i32 3 = .err .badEnum ∧
    ConnectionType.from_i32 2 = .err .badEnum :=
  c8_unknown_type_bad_enum 4 0 [] (by decide) 3 (by decide) 2 (by decide)

/-- C9: for every 32-bit input, `PacketLocation::from_i32` returns First,
Last or Only, and never Middle: the arm producing Middle demands both FF
bits set, which the First arm (top bit set) already captures. -/
theorem c9_middle_never_returned (x : Nat) (_hx : x < 2 ^ 32) :
    PacketLocation.from_i32 x ≠ .Middle ∧
    (PacketLocation.from_i32 x = .First ∨ PacketLocation.from_i32 x = .Last ∨
      PacketLocation.from_i32 x = .Only) := by
  unfold PacketLocation.from_i32
  split_ifs with h1 h2 h3
  · exact ⟨by decide, Or.inl rfl⟩
  · exact ⟨by decide, Or.inr (Or.inl rfl)⟩
  · exact ⟨by decide, Or.inr (Or.inr rfl)⟩
  · push_neg at h3
    exact absurd (land_top_of_land_both x h3) h1

/-- Witness for C9 at input 0, which maps to Only. -/
theorem c9_middle_never_returned_witness :
    (0 : Nat) < 2 ^ 32 ∧
    (PacketLocation.from_i32 0 ≠ .Middle ∧
      (PacketLocation.from_i32 0 = .First ∨ PacketLocation.from_i32 0 = .Last ∨
        PacketLocation.from_i32 0 = .Only)) :=
  ⟨by decide, c9_middle_never_returned 0 (by decide)⟩

/-- C10: the serialized bytes of a data packet do not depend on its
`in_order_delivery` field: the O bit of the second word is never written, so
two packets differing only there serialize identically. -/
theorem c10_serialize_ignores_in_order (d : DataPacket) (b1 b2 : Bool) :
    Packet.serialize (.Data { d with in_order_delivery := b1 }) =
      Packet.serialize (.Data { d with in_order_delivery := b2 }) := rfl

end Srt
